import Mathlib

/-!
Verification of `openzwave-stateful-rust` (`src/lib.rs`, `src/error.rs`).

This file shallowly embeds the notification-to-domain-event translation
engine and the shared network state of the crate, and proves or refutes
the frozen claims about them.

Modelling conventions:
  * `Controller`, `Node` and `ValueID` come from the external `openzwave`
    crate; they are identity types (equality and ordering are derived on
    all of their numeric fields), so they are embedded as structures of
    naturals with decidable equality.  `Node::get_controller` derives the
    controller from the node's home id, as in the binding.
  * Rust's `HashMap<Controller, ControllerInfo>` is embedded as an
    association list with HashMap `insert` semantics (`insertKV`
    replaces the first entry with the key, else appends); a `HashMap`
    never holds two entries with the same key, which appears here as the
    `Nodup` hypothesis on the key list.
  * Rust's `BTreeSet` is embedded as a `Finset`: no duplicates, and
    inserting an element equal to a present one leaves the set unchanged,
    exactly as `BTreeSet::insert` does.
  * `nodes_map : HashMap<Controller, BTreeSet<Node>>` is embedded as a
    total function `Controller → Finset Node` defaulting to `∅`: the code
    only ever reads it through `entry(..).or_insert(BTreeSet::new())`
    (absent ≡ empty) and `get_mut` followed by `remove` (absent ≡ no-op),
    so the function view is observationally faithful.
  * A Rust panic (`Option::unwrap` on `None`, `Result::unwrap` on a
    failed channel send) is embedded as `Except.error (p : Panic)`.
  * The mpsc channel is embedded by a single flag `chOpen`: a send
    succeeds iff the consumer end has not been dropped, mirroring
    `mpsc::Sender::send` which fails exactly when the receiver is gone.
-/

namespace Ozw

/-- `openzwave::controller::Controller`: identity of a network coordinator
(home id), equality derived on the identity. -/
structure Controller where
  home_id : Nat
deriving DecidableEq

/-- `openzwave::node::Node`: composite identity controller + node id. -/
structure Node where
  home_id : Nat
  node_id : Nat
deriving DecidableEq

/-- `Node::get_controller`: the controller owning this node, derived from
the node's home id as in the openzwave binding. -/
def Node.get_controller (n : Node) : Controller := ⟨n.home_id⟩

/-- Modelled from the spec: the external `Display` rendering of a `Node`
(the exact text lives in the openzwave crate, outside `src/`); any
rendering of the node's identity fits the claims. -/
def Node.displayStr (n : Node) : String :=
  "Node(home_id=" ++ toString n.home_id ++ ", node_id=" ++ toString n.node_id ++ ")"

/-- `openzwave::value_classes::value_id::ValueID`: full identity of one
value; in the binding the whole structure is the `Ord`/`Eq` key of the
`BTreeSet`, so identity determines the entire stored entry. -/
structure ValueID where
  home_id : Nat
  id : Nat
deriving DecidableEq

/-- `openzwave::notification::ControllerState` (external crate). -/
inductive ControllerState
  | Normal
  | Starting
  | Cancel
  | Error
  | Waiting
  | Sleeping
  | InProgress
  | Completed
  | Failed
  | NodeOK
  | NodeFailed
deriving DecidableEq

/-- Modelled from the spec: `ControllerState::from_u8`, the decode of the
driver's 8-bit controller-state code (it lives in the external openzwave
crate, outside `src/`); the numeric codes follow the OpenZWave
`Driver::ControllerState` enumeration order, and codes outside the
enumeration are unrecognized. -/
def ControllerState.from_u8 (b : Nat) : Option ControllerState :=
  match b with
  | 0 => some .Normal
  | 1 => some .Starting
  | 2 => some .Cancel
  | 3 => some .Error
  | 4 => some .Waiting
  | 5 => some .Sleeping
  | 6 => some .InProgress
  | 7 => some .Completed
  | 8 => some .Failed
  | 9 => some .NodeOK
  | 10 => some .NodeFailed
  | _ => none

/-- `openzwave::notification::ControllerError` (external crate). -/
inductive ControllerError
  | None
  | ButtonNotFound
  | NodeNotFound
  | NotBridge
  | NotSUC
  | NotSecondary
  | NotPrimary
  | IsPrimary
  | NotFound
  | Busy
  | Failed
  | Disabled
  | Overflow
deriving DecidableEq

/-- Modelled from the spec: `ControllerError::from_u8` (external openzwave
crate); numeric codes follow the OpenZWave `Driver::ControllerError`
enumeration order, codes outside it are unrecognized. -/
def ControllerError.from_u8 (b : Nat) : Option ControllerError :=
  match b with
  | 0 => some .None
  | 1 => some .ButtonNotFound
  | 2 => some .NodeNotFound
  | 3 => some .NotBridge
  | 4 => some .NotSUC
  | 5 => some .NotSecondary
  | 6 => some .NotPrimary
  | 7 => some .IsPrimary
  | 8 => some .NotFound
  | 9 => some .Busy
  | 10 => some .Failed
  | 11 => some .Disabled
  | 12 => some .Overflow
  | _ => none

/-- `openzwave::notification::NotificationCode` (external crate): the
seven recognized sub-codes of a `Type_Notification` notification. -/
inductive NotificationCode
  | MsgComplete
  | Timeout
  | NoOperation
  | Awake
  | Sleep
  | Dead
  | Alive
deriving DecidableEq

/-- `ControllerInfo` (src/lib.rs lines 87-91). -/
structure ControllerInfo where
  last_state : ControllerState
  last_error : ControllerError
deriving DecidableEq

/-- `ControllerInfo::new` (src/lib.rs lines 94-99). -/
def ControllerInfo.new : ControllerInfo :=
  { last_state := ControllerState.Normal, last_error := ControllerError.None }

/-- `HashMap::insert` semantics on an association list: replace the first
entry carrying the key, else append the new entry. -/
def insertKV (l : List (Controller × ControllerInfo)) (c : Controller) (v : ControllerInfo) :
    List (Controller × ControllerInfo) :=
  match l with
  | [] => [(c, v)]
  | (k, w) :: rest => if k = c then (c, v) :: rest else (k, w) :: insertKV rest c v

/-- `HashMap::get` semantics on an association list. -/
def lookupKey (c : Controller) : List (Controller × ControllerInfo) → Option ControllerInfo
  | [] => none
  | (k, v) :: rest => if k = c then some v else lookupKey c rest

/-- Number of entries of the association list carrying the key `c`. -/
def countKey (c : Controller) (l : List (Controller × ControllerInfo)) : Nat :=
  (l.filter (fun p => p.1 = c)).length

/-- `State` (src/lib.rs lines 108-114). -/
structure State where
  controllers : List (Controller × ControllerInfo)
  nodes : Finset Node
  nodes_map : Controller → Finset Node
  value_ids : Finset ValueID

/-- `State::new` (src/lib.rs lines 117-124). -/
def State.new : State :=
  { controllers := [], nodes := ∅, nodes_map := fun _ => ∅, value_ids := ∅ }

/-- `State::add_node` (src/lib.rs lines 146-150): insert the node into its
controller's grouping (creating the grouping when absent) and into the
flattened node set. -/
def State.add_node (s : State) (node : Node) : State :=
  { s with
    nodes_map := fun c =>
      if c = node.get_controller then insert node (s.nodes_map c) else s.nodes_map c,
    nodes := insert node s.nodes }

/-- `State::remove_node` (src/lib.rs lines 152-157): remove the node from
its controller's grouping when that grouping exists (no-op otherwise) and
from the flattened node set. -/
def State.remove_node (s : State) (node : Node) : State :=
  { s with
    nodes_map := fun c =>
      if c = node.get_controller then (s.nodes_map c).erase node else s.nodes_map c,
    nodes := s.nodes.erase node }

/-- `State::add_value_id` (src/lib.rs lines 159-161): `BTreeSet::insert`. -/
def State.add_value_id (s : State) (value_id : ValueID) : State :=
  { s with value_ids := insert value_id s.value_ids }

/-- `State::remove_value_id` (src/lib.rs lines 163-165): `BTreeSet::remove`. -/
def State.remove_value_id (s : State) (value_id : ValueID) : State :=
  { s with value_ids := s.value_ids.erase value_id }

/-- `openzwave::notification::NotificationType`: the variants matched by
`on_notification`; `Type_Other code` stands for every further variant of
the external enumeration, all of which fall into the `_` arm. -/
inductive NotificationType
  | Type_DriverReady
  | Type_DriverFailed
  | Type_DriverReset
  | Type_AwakeNodesQueried
  | Type_AllNodesQueriedSomeDead
  | Type_AllNodesQueried
  | Type_ControllerCommand
  | Type_NodeNew
  | Type_NodeAdded
  | Type_NodeRemoved
  | Type_NodeNaming
  | Type_NodeProtocolInfo
  | Type_NodeEvent
  | Type_Group
  | Type_EssentialNodeQueriesComplete
  | Type_NodeQueriesComplete
  | Type_Notification
  | Type_ValueAdded
  | Type_ValueChanged
  | Type_ValueRemoved
  | Type_ValueRefreshed
  | Type_Other (code : Nat)
deriving DecidableEq

/-- A raw driver notification as observed through the getters used in
`on_notification`: `get_type`, `get_controller`, `get_node`, `get_event`
(optional 8-bit payload), `get_byte`, `get_value_id`,
`get_notification_code` (`none` covers both an absent and an unrecognized
sub-code, as in the binding's decoder). -/
structure Notification where
  type : NotificationType
  controller : Controller
  node : Node
  event : Option Nat
  byte : Nat
  value_id : ValueID
  notification_code : Option NotificationCode
deriving DecidableEq

/-- Modelled from the spec: the derived `Debug` rendering of a raw
notification used by the `_` arm (the derive lives outside `src/`); any
rendering of the raw payload fits the claims. -/
def Notification.debugStr (n : Notification) : String :=
  "Notification(node=" ++ n.node.displayStr ++ ", byte=" ++ toString n.byte ++ ")"

/-- `ZWaveNotification` (src/lib.rs lines 240-297): the domain events. -/
inductive ZWaveNotification
  | ControllerReady (c : Controller)
  | ControllerFailed (c : Controller)
  | ControllerReset (c : Controller)
  | AwakeNodesQueried (c : Controller)
  | AllNodesQueriedSomeDead (c : Controller)
  | AllNodesQueried (c : Controller)
  | StateNormal (c : Controller)
  | StateStarting (c : Controller)
  | StateCancel (c : Controller)
  | StateWaiting (c : Controller)
  | StateSleeping (c : Controller)
  | StateInProgress (c : Controller)
  | StateCompleted (c : Controller)
  | StateFailed (c : Controller)
  | StateNodeOK (c : Controller)
  | StateNodeFailed (c : Controller)
  | ErrorNone (c : Controller)
  | ErrorButtonNotFound (c : Controller)
  | ErrorNodeNotFound (c : Controller)
  | ErrorNotBridge (c : Controller)
  | ErrorNotSUC (c : Controller)
  | ErrorNotSecondary (c : Controller)
  | ErrorNotPrimary (c : Controller)
  | ErrorIsPrimary (c : Controller)
  | ErrorNotFound (c : Controller)
  | ErrorBusy (c : Controller)
  | ErrorFailed (c : Controller)
  | ErrorDisabled (c : Controller)
  | ErrorOverflow (c : Controller)
  | NodeNew (n : Node)
  | NodeAdded (n : Node)
  | NodeRemoved (n : Node)
  | NodeNaming (n : Node)
  | NodeProtocolInfo (n : Node)
  | NodeEvent (n : Node) (b : Nat)
  | Group (n : Node)
  | EssentialNodeQueriesComplete (n : Node)
  | NodeQueriesComplete (n : Node)
  | NotificationMsgComplete (n : Node)
  | NotificationTimeout (n : Node)
  | NotificationNoOperation (n : Node)
  | NotificationAwake (n : Node)
  | NotificationSleep (n : Node)
  | NotificationDead (n : Node)
  | NotificationAlive (n : Node)
  | ValueAdded (v : ValueID)
  | ValueChanged (v : ValueID)
  | ValueRemoved (v : ValueID)
  | ValueRefreshed (v : ValueID)
  | Generic (info : String)
deriving DecidableEq

/-- A Rust panic reached inside `on_notification`: `unwrap` of a missing
event byte (line 431) or `unwrap` of a failed channel send. -/
inductive Panic
  | unwrapFailed
  | sendFailed
deriving DecidableEq

/-- The tail shared by every `Type_ControllerCommand` outcome
(src/lib.rs lines 474-478): store the freshly built `ControllerInfo` for
the controller, then send the one computed event. -/
def commandFinish (s : State) (c : Controller) (info : ControllerInfo)
    (zwn : ZWaveNotification) : State × List ZWaveNotification :=
  ({ s with controllers := insertKV s.controllers c info }, [zwn])

/-- `on_notification` (src/lib.rs lines 390-592), split into its pure
part: the state transformation together with the list of events handed to
the channel sender (every arm sends exactly one).  `Except.error` models a
panic (`get_event().unwrap()` on a `ControllerCommand` without an event
byte). -/
def onNotification (n : Notification) (s : State) :
    Except Panic (State × List ZWaveNotification) :=
  match n.type with
  | .Type_DriverReady =>
      .ok ({ s with controllers := insertKV s.controllers n.controller ControllerInfo.new },
        [ZWaveNotification.ControllerReady n.controller])
  | .Type_DriverFailed =>
      .ok (s, [ZWaveNotification.ControllerFailed n.controller])
  | .Type_DriverReset =>
      .ok (s, [ZWaveNotification.ControllerReset n.controller])
  | .Type_AwakeNodesQueried =>
      .ok (s, [ZWaveNotification.AwakeNodesQueried n.controller])
  | .Type_AllNodesQueriedSomeDead =>
      .ok (s, [ZWaveNotification.AllNodesQueriedSomeDead n.controller])
  | .Type_AllNodesQueried =>
      .ok (s, [ZWaveNotification.AllNodesQueried n.controller])
  | .Type_ControllerCommand =>
      match n.event with
      | none => .error Panic.unwrapFailed
      | some controller_state_u8 =>
        match ControllerState.from_u8 controller_state_u8 with
        | some controller_state =>
          match controller_state with
          | .Normal =>
              .ok (commandFinish s n.controller
                { last_state := .Normal, last_error := .None }
                (ZWaveNotification.StateNormal n.controller))
          | .Starting =>
              .ok (commandFinish s n.controller
                { last_state := .Starting, last_error := .None }
                (ZWaveNotification.StateStarting n.controller))
          | .Cancel =>
              .ok (commandFinish s n.controller
                { last_state := .Cancel, last_error := .None }
                (ZWaveNotification.StateCancel n.controller))
          | .Waiting =>
              .ok (commandFinish s n.controller
                { last_state := .Waiting, last_error := .None }
                (ZWaveNotification.StateWaiting n.controller))
          | .Sleeping =>
              .ok (commandFinish s n.controller
                { last_state := .Sleeping, last_error := .None }
                (ZWaveNotification.StateSleeping n.controller))
          | .InProgress =>
              .ok (commandFinish s n.controller
                { last_state := .InProgress, last_error := .None }
                (ZWaveNotification.StateInProgress n.controller))
          | .Completed =>
              .ok (commandFinish s n.controller
                { last_state := .Completed, last_error := .None }
                (ZWaveNotification.StateCompleted n.controller))
          | .Failed =>
              .ok (commandFinish s n.controller
                { last_state := .Failed, last_error := .None }
                (ZWaveNotification.StateFailed n.controller))
          | .NodeOK =>
              .ok (commandFinish s n.controller
                { last_state := .NodeOK, last_error := .None }
                (ZWaveNotification.StateNodeOK n.controller))
          | .NodeFailed =>
              .ok (commandFinish s n.controller
                { last_state := .NodeFailed, last_error := .None }
                (ZWaveNotification.StateNodeFailed n.controller))
          | .Error =>
            match ControllerError.from_u8 n.byte with
            | some controller_error =>
                .ok (commandFinish s n.controller
                  { last_state := .Error, last_error := controller_error }
                  (match controller_error with
                   | .None => ZWaveNotification.ErrorNone n.controller
                   | .ButtonNotFound => ZWaveNotification.ErrorButtonNotFound n.controller
                   | .NodeNotFound => ZWaveNotification.ErrorNodeNotFound n.controller
                   | .NotBridge => ZWaveNotification.ErrorNotBridge n.controller
                   | .NotSUC => ZWaveNotification.ErrorNotSUC n.controller
                   | .NotSecondary => ZWaveNotification.ErrorNotSecondary n.controller
                   | .NotPrimary => ZWaveNotification.ErrorNotPrimary n.controller
                   | .IsPrimary => ZWaveNotification.ErrorIsPrimary n.controller
                   | .NotFound => ZWaveNotification.ErrorNotFound n.controller
                   | .Busy => ZWaveNotification.ErrorBusy n.controller
                   | .Failed => ZWaveNotification.ErrorFailed n.controller
                   | .Disabled => ZWaveNotification.ErrorDisabled n.controller
                   | .Overflow => ZWaveNotification.ErrorOverflow n.controller))
            | none =>
                .ok (commandFinish s n.controller
                  { last_state := .Error, last_error := .None }
                  (ZWaveNotification.Generic
                    ("Unknown ControllerError: " ++ toString n.byte)))
        | none =>
            .ok (commandFinish s n.controller ControllerInfo.new
              (ZWaveNotification.Generic
                ("Unknown ControllerState: " ++ toString controller_state_u8)))
  | .Type_NodeNew =>
      .ok (s, [ZWaveNotification.NodeNew n.node])
  | .Type_NodeAdded =>
      .ok (s.add_node n.node, [ZWaveNotification.NodeAdded n.node])
  | .Type_NodeRemoved =>
      .ok (s.remove_node n.node, [ZWaveNotification.NodeRemoved n.node])
  | .Type_NodeNaming =>
      .ok (s, [ZWaveNotification.NodeNaming n.node])
  | .Type_NodeProtocolInfo =>
      .ok (s, [ZWaveNotification.NodeProtocolInfo n.node])
  | .Type_NodeEvent =>
      .ok (s, [ZWaveNotification.NodeEvent n.node n.byte])
  | .Type_Group =>
      .ok (s, [ZWaveNotification.Group n.node])
  | .Type_EssentialNodeQueriesComplete =>
      .ok (s, [ZWaveNotification.EssentialNodeQueriesComplete n.node])
  | .Type_NodeQueriesComplete =>
      .ok (s, [ZWaveNotification.NodeQueriesComplete n.node])
  | .Type_Notification =>
      .ok (s,
        [match n.notification_code with
         | some .MsgComplete => ZWaveNotification.NotificationMsgComplete n.node
         | some .Timeout => ZWaveNotification.NotificationTimeout n.node
         | some .NoOperation => ZWaveNotification.NotificationNoOperation n.node
         | some .Awake => ZWaveNotification.NotificationAwake n.node
         | some .Sleep => ZWaveNotification.NotificationSleep n.node
         | some .Dead => ZWaveNotification.NotificationDead n.node
         | none => ZWaveNotification.Generic ("Unknown NotificationCode " ++ n.node.displayStr)
         | some .Alive => ZWaveNotification.NotificationAlive n.node])
  | .Type_ValueAdded =>
      .ok (s.add_value_id n.value_id, [ZWaveNotification.ValueAdded n.value_id])
  | .Type_ValueChanged =>
      .ok (s.add_value_id n.value_id, [ZWaveNotification.ValueChanged n.value_id])
  | .Type_ValueRemoved =>
      .ok (s.remove_value_id n.value_id, [ZWaveNotification.ValueRemoved n.value_id])
  | .Type_ValueRefreshed =>
      .ok (s, [ZWaveNotification.ValueRefreshed n.value_id])
  | .Type_Other _ =>
      .ok (s, [ZWaveNotification.Generic ("Unknown notification: " ++ n.debugStr)])

/-- `mpsc::Sender::send(..)` followed by `.unwrap()`: succeeds when the
consumer end is alive, panics when it has been dropped. -/
def trySend (chOpen : Bool) : Except Panic Unit :=
  if chOpen then .ok () else .error Panic.sendFailed

/-- Send every produced event in order, panicking at the first failed
send, as each `send(..).unwrap()` in the source does. -/
def sendAll (chOpen : Bool) : List ZWaveNotification → Except Panic Unit
  | [] => .ok ()
  | _ :: rest =>
    match trySend chOpen with
    | .error e => .error e
    | .ok _ => sendAll chOpen rest

/-- Full `on_notification` including the channel sends: the pure
translation followed by `send(..).unwrap()` of each produced event. -/
def onNotificationSend (chOpen : Bool) (n : Notification) (s : State) : Except Panic State :=
  match onNotification n s with
  | .error e => .error e
  | .ok (s1, evs) =>
    match sendAll chOpen evs with
    | .error e => .error e
    | .ok _ => .ok s1

/-- The state reached by one notification, the state itself when the
handler panics. -/
def stepState (n : Notification) (s : State) : State :=
  match onNotification n s with
  | .ok (s1, _) => s1
  | .error _ => s

/-- The atomic steps `on_notification` performs on shared resources, in
program order: acquiring and releasing the state mutex (`get_state` and
the end of its scope block), mutating the guarded state, acquiring the
sender mutex (`get_channel_sender`), sending on the channel, and — for
the `ControllerCommand` arm — reading the notification's event byte
(`get_event`, line 431) and its error byte (`get_byte`, line 448). -/
inductive Action
  | acquireState
  | mutateState
  | releaseState
  | acquireSender
  | sendEvent
  | readEventByte
  | readErrorByte
deriving DecidableEq

/-- The action sequence of an arm that mutates the state inside a scope
block and then sends: `{ let mut state = self.get_state(); ... }` followed
by `self.get_channel_sender().send(..)`. -/
def mutateTrace : List Action :=
  [Action.acquireState, Action.mutateState, Action.releaseState,
   Action.acquireSender, Action.sendEvent]

/-- The action sequence of an emit-only arm. -/
def emitTrace : List Action :=
  [Action.acquireSender, Action.sendEvent]

/-- The sequence of shared-resource actions `on_notification` performs for
one notification, in program order, mirroring the block structure of each
match arm of src/lib.rs lines 393-591.  A `ControllerCommand` without an
event byte stops at the failed `unwrap` after reading the event. -/
def notificationActions (n : Notification) : List Action :=
  match n.type with
  | .Type_DriverReady => mutateTrace
  | .Type_DriverFailed => emitTrace
  | .Type_DriverReset => emitTrace
  | .Type_AwakeNodesQueried => emitTrace
  | .Type_AllNodesQueriedSomeDead => emitTrace
  | .Type_AllNodesQueried => emitTrace
  | .Type_ControllerCommand =>
      match n.event with
      | none => [Action.readEventByte]
      | some b =>
        match ControllerState.from_u8 b with
        | some .Error => Action.readEventByte :: Action.readErrorByte :: mutateTrace
        | _ => Action.readEventByte :: mutateTrace
  | .Type_NodeNew => emitTrace
  | .Type_NodeAdded => mutateTrace
  | .Type_NodeRemoved => mutateTrace
  | .Type_NodeNaming => emitTrace
  | .Type_NodeProtocolInfo => emitTrace
  | .Type_NodeEvent => emitTrace
  | .Type_Group => emitTrace
  | .Type_EssentialNodeQueriesComplete => emitTrace
  | .Type_NodeQueriesComplete => emitTrace
  | .Type_Notification => emitTrace
  | .Type_ValueAdded => mutateTrace
  | .Type_ValueChanged => mutateTrace
  | .Type_ValueRemoved => mutateTrace
  | .Type_ValueRefreshed => emitTrace
  | .Type_Other _ => emitTrace

/-- Every state mutation strictly precedes every channel send in the
trace, with the state lock released strictly in between. -/
def mutationBeforeSend (tr : List Action) : Prop :=
  ∀ i j : Fin tr.length, tr.get i = Action.mutateState → tr.get j = Action.sendEvent →
    (i : Nat) < (j : Nat) ∧
    ∃ k : Fin tr.length, (i : Nat) < (k : Nat) ∧ (k : Nat) < (j : Nat) ∧
      tr.get k = Action.releaseState

/-- The notification types whose arm mutates the network state. -/
def mutatingTypes : List NotificationType :=
  [NotificationType.Type_DriverReady, NotificationType.Type_ControllerCommand,
   NotificationType.Type_NodeAdded, NotificationType.Type_NodeRemoved,
   NotificationType.Type_ValueAdded, NotificationType.Type_ValueChanged,
   NotificationType.Type_ValueRemoved]

/-- One `State::add_node` / `State::remove_node` call. -/
inductive NodeOp
  | add (n : Node)
  | remove (n : Node)

/-- Apply one node operation. -/
def applyNodeOp (s : State) : NodeOp → State
  | .add n => s.add_node n
  | .remove n => s.remove_node n

/-- Apply a sequence of node operations to the initially empty state. -/
def applyNodeOps (ops : List NodeOp) : State :=
  ops.foldl applyNodeOp State.new

/-- The node-set invariant of §3: the flattened node set holds exactly
the nodes of the per-controller groupings, and a grouping only holds
nodes owned by its key controller. -/
def nodesInvariant (s : State) : Prop :=
  (∀ nd : Node, nd ∈ s.nodes ↔ ∃ c : Controller, nd ∈ s.nodes_map c) ∧
  (∀ (c : Controller) (nd : Node), nd ∈ s.nodes_map c → c = nd.get_controller)

theorem lookupKey_insertKV_self (l : List (Controller × ControllerInfo)) (c : Controller)
    (v : ControllerInfo) : lookupKey c (insertKV l c v) = some v := by
  induction l with
  | nil => simp [insertKV, lookupKey]
  | cons p rest ih =>
    obtain ⟨k, w⟩ := p
    by_cases hk : k = c
    · simp [insertKV, hk, lookupKey]
    · simp [insertKV, hk, lookupKey, ih]

theorem countKey_cons (c : Controller) (p : Controller × ControllerInfo)
    (l : List (Controller × ControllerInfo)) :
    countKey c (p :: l) = (if p.1 = c then 1 else 0) + countKey c l := by
  by_cases h : p.1 = c
  · simp [countKey, List.filter_cons, h, Nat.add_comm]
  · simp [countKey, List.filter_cons, h]

theorem countKey_eq_zero (c : Controller) (l : List (Controller × ControllerInfo))
    (h : c ∉ l.map Prod.fst) : countKey c l = 0 := by
  induction l with
  | nil => rfl
  | cons p rest ih =>
    simp only [List.map_cons, List.mem_cons, not_or] at h
    rw [countKey_cons, if_neg (fun hp => h.1 hp.symm), ih h.2]

theorem countKey_insertKV (l : List (Controller × ControllerInfo)) (c : Controller)
    (v : ControllerInfo) (h : (l.map Prod.fst).Nodup) :
    countKey c (insertKV l c v) = 1 := by
  induction l with
  | nil => simp [insertKV, countKey, List.filter]
  | cons p rest ih =>
    obtain ⟨k, w⟩ := p
    simp only [List.map_cons, List.nodup_cons] at h
    by_cases hk : k = c
    · subst hk
      rw [insertKV, if_pos rfl, countKey_cons, if_pos rfl,
        countKey_eq_zero k rest h.1]
    · rw [insertKV, if_neg hk, countKey_cons, if_neg hk, ih h.2]

theorem onNotification_singleton (n : Notification) (s : State)
    (p : State × List ZWaveNotification) (h : onNotification n s = Except.ok p) :
    p.2.length = 1 := by
  unfold onNotification at h
  repeat' split at h
  all_goals cases h
  all_goals simp [commandFinish]

theorem nodesInvariant_new : nodesInvariant State.new := by
  constructor
  · intro nd; simp [State.new]
  · intro c nd h; simp [State.new] at h

theorem mem_mapUpdate (m : Controller → Finset Node) (ctrl : Controller) (t : Finset Node)
    (c : Controller) (nd : Node) :
    nd ∈ (if c = ctrl then t else m c) ↔ (c = ctrl ∧ nd ∈ t) ∨ (¬c = ctrl ∧ nd ∈ m c) := by
  by_cases h : c = ctrl <;> simp [h]

theorem nodesInvariant_add (s : State) (nd0 : Node) (h : nodesInvariant s) :
    nodesInvariant (s.add_node nd0) := by
  obtain ⟨h1, h2⟩ := h
  constructor
  · intro nd
    simp only [State.add_node, Finset.mem_insert, mem_mapUpdate]
    constructor
    · rintro (rfl | hnd)
      · exact ⟨nd.get_controller, Or.inl ⟨rfl, Or.inl rfl⟩⟩
      · obtain ⟨c, hc⟩ := (h1 nd).1 hnd
        by_cases hcc : c = nd0.get_controller
        · exact ⟨c, Or.inl ⟨hcc, Or.inr hc⟩⟩
        · exact ⟨c, Or.inr ⟨hcc, hc⟩⟩
    · rintro ⟨c, (⟨hcc, (rfl | hc)⟩ | ⟨hcc, hc⟩)⟩
      · exact Or.inl rfl
      · exact Or.inr ((h1 nd).2 ⟨_, hc⟩)
      · exact Or.inr ((h1 nd).2 ⟨_, hc⟩)
  · intro c nd hmem
    simp only [State.add_node, mem_mapUpdate] at hmem
    rcases hmem with ⟨hcc, hc⟩ | ⟨hcc, hc⟩
    · rcases Finset.mem_insert.mp hc with rfl | hc
      · exact hcc
      · exact h2 _ _ hc
    · exact h2 _ _ hc

theorem nodesInvariant_remove (s : State) (nd0 : Node) (h : nodesInvariant s) :
    nodesInvariant (s.remove_node nd0) := by
  obtain ⟨h1, h2⟩ := h
  constructor
  · intro nd
    simp only [State.remove_node, Finset.mem_erase, mem_mapUpdate]
    constructor
    · rintro ⟨hne, hnd⟩
      obtain ⟨c, hc⟩ := (h1 nd).1 hnd
      by_cases hcc : c = nd0.get_controller
      · exact ⟨c, Or.inl ⟨hcc, hne, hc⟩⟩
      · exact ⟨c, Or.inr ⟨hcc, hc⟩⟩
    · rintro ⟨c, (⟨hcc, hne, hc⟩ | ⟨hcc, hc⟩)⟩
      · exact ⟨hne, (h1 nd).2 ⟨_, hc⟩⟩
      · refine ⟨?_, (h1 nd).2 ⟨_, hc⟩⟩
        rintro rfl
        exact hcc (h2 _ _ hc)
  · intro c nd hmem
    simp only [State.remove_node, mem_mapUpdate] at hmem
    rcases hmem with ⟨hcc, hc⟩ | ⟨hcc, hc⟩
    · exact h2 _ _ (Finset.mem_erase.mp hc).2
    · exact h2 _ _ hc

theorem nodesInvariant_foldl (ops : List NodeOp) (s : State) (h : nodesInvariant s) :
    nodesInvariant (ops.foldl applyNodeOp s) := by
  induction ops generalizing s with
  | nil => exact h
  | cons op rest ih =>
    simp only [List.foldl_cons]
    apply ih
    cases op with
    | add nd => exact nodesInvariant_add s nd h
    | remove nd => exact nodesInvariant_remove s nd h

/-- Whether the translation finished without a panic. -/
def exceptIsOk : Except Panic (State × List ZWaveNotification) → Bool
  | .ok _ => true
  | .error _ => false

/-- Concrete controller used by witnesses and counterexamples. -/
def cEx : Controller := ⟨1⟩

/-- Concrete node used by witnesses and counterexamples. -/
def nodeEx : Node := ⟨1, 5⟩

/-- Concrete value identity used by witnesses and counterexamples. -/
def vEx : ValueID := ⟨1, 7⟩

/-- A DriverReady notification for `cEx`. -/
def readyEx : Notification :=
  { type := NotificationType.Type_DriverReady, controller := cEx, node := nodeEx,
    event := none, byte := 0, value_id := vEx, notification_code := none }

/-- A ControllerCommand notification whose state byte decodes to Starting. -/
def cmdStartingEx : Notification :=
  { type := NotificationType.Type_ControllerCommand, controller := cEx, node := nodeEx,
    event := some 1, byte := 0, value_id := vEx, notification_code := none }

/-- A ControllerCommand notification with the unrecognized state byte 99. -/
def cmdUnknownEx : Notification :=
  { type := NotificationType.Type_ControllerCommand, controller := cEx, node := nodeEx,
    event := some 99, byte := 0, value_id := vEx, notification_code := none }

/-- A ControllerCommand notification whose state byte decodes to Error and
whose error byte 99 is unrecognized. -/
def cmdErrUnknownEx : Notification :=
  { type := NotificationType.Type_ControllerCommand, controller := cEx, node := nodeEx,
    event := some 3, byte := 99, value_id := vEx, notification_code := none }

/-- A ControllerCommand notification carrying no event byte. -/
def cmdNoEventEx : Notification :=
  { type := NotificationType.Type_ControllerCommand, controller := cEx, node := nodeEx,
    event := none, byte := 0, value_id := vEx, notification_code := none }

/-- A NodeAdded notification for `nodeEx`. -/
def nodeAddedEx : Notification :=
  { type := NotificationType.Type_NodeAdded, controller := cEx, node := nodeEx,
    event := none, byte := 0, value_id := vEx, notification_code := none }

/-- A ValueAdded notification for `vEx`. -/
def valueAddedEx : Notification :=
  { type := NotificationType.Type_ValueAdded, controller := cEx, node := nodeEx,
    event := none, byte := 0, value_id := vEx, notification_code := none }

/-- A ValueChanged notification for `vEx`. -/
def valueChangedEx : Notification :=
  { type := NotificationType.Type_ValueChanged, controller := cEx, node := nodeEx,
    event := none, byte := 0, value_id := vEx, notification_code := none }

/-- A notification of a type outside the translation table. -/
def otherEx : Notification :=
  { type := NotificationType.Type_Other 255, controller := cEx, node := nodeEx,
    event := none, byte := 0, value_id := vEx, notification_code := none }

/-- A state whose controller map records a non-default info for `cEx`. -/
def sStartingEx : State :=
  { State.new with
    controllers := [(cEx, { last_state := ControllerState.Starting,
                            last_error := ControllerError.None })] }

/-- Claim C1, amended: processing a DriverReady notification always leaves
exactly one entry for its controller in the controller map and always
resets that controller's ControllerInfo to the default (last_state Normal,
last_error None) — on a second occurrence just as on the first, because
the handler unconditionally inserts a fresh `ControllerInfo::new()`. -/
theorem C1_driverReady_resets_every_time (n : Notification) (s : State)
    (hnodup : (s.controllers.map Prod.fst).Nodup)
    (ht : n.type = NotificationType.Type_DriverReady) :
    ∃ s1 : State,
      onNotification n s =
        Except.ok (s1, [ZWaveNotification.ControllerReady n.controller]) ∧
      countKey n.controller s1.controllers = 1 ∧
      lookupKey n.controller s1.controllers = some ControllerInfo.new := by
  have hmain : onNotification n s =
      Except.ok ({ s with controllers := insertKV s.controllers n.controller ControllerInfo.new },
        [ZWaveNotification.ControllerReady n.controller]) := by
    simp only [onNotification, ht]
  exact ⟨_, hmain, countKey_insertKV _ _ _ hnodup, lookupKey_insertKV_self _ _ _⟩

/-- Claim C1, witness: the amended theorem applied to a concrete
DriverReady notification on the empty state. -/
theorem C1_witness :
    ∃ s1 : State,
      onNotification readyEx State.new =
        Except.ok (s1, [ZWaveNotification.ControllerReady readyEx.controller]) ∧
      countKey readyEx.controller s1.controllers = 1 ∧
      lookupKey readyEx.controller s1.controllers = some ControllerInfo.new :=
  C1_driverReady_resets_every_time readyEx State.new (by simp [State.new]) rfl

/-- Claim C1, counterexample: after DriverReady, a ControllerCommand that
records Starting, and a second DriverReady, the info recorded since the
first DriverReady has been reset to the default — refuting the claim that
the second DriverReady does not reset the recorded info. -/
theorem C1_counterexample :
    lookupKey cEx (stepState cmdStartingEx (stepState readyEx State.new)).controllers =
      some { last_state := ControllerState.Starting, last_error := ControllerError.None } ∧
    lookupKey cEx
        (stepState readyEx
          (stepState cmdStartingEx (stepState readyEx State.new))).controllers =
      some ControllerInfo.new ∧
    ({ last_state := ControllerState.Starting, last_error := ControllerError.None } :
      ControllerInfo) ≠ ControllerInfo.new := by
  refine ⟨?_, ?_, ?_⟩ <;> decide

/-- Claim C2, amended: a ControllerCommand notification with an
unrecognized state byte emits exactly one diagnostic Generic event
carrying the raw code, but still mutates the controller map: the entry of
that controller is replaced by (created as) the default ControllerInfo. -/
theorem C2_unknown_state_code (n : Notification) (s : State) (b : Nat)
    (ht : n.type = NotificationType.Type_ControllerCommand)
    (he : n.event = some b)
    (hu : ControllerState.from_u8 b = none) :
    onNotification n s =
      Except.ok ({ s with controllers := insertKV s.controllers n.controller ControllerInfo.new },
        [ZWaveNotification.Generic ("Unknown ControllerState: " ++ toString b)]) := by
  simp only [onNotification, ht, he, hu, commandFinish]

/-- Claim C2, witness: the amended theorem applied to a concrete
ControllerCommand notification with state byte 99. -/
theorem C2_witness :
    onNotification cmdUnknownEx sStartingEx =
      Except.ok ({ sStartingEx with
          controllers := insertKV sStartingEx.controllers cmdUnknownEx.controller ControllerInfo.new },
        [ZWaveNotification.Generic ("Unknown ControllerState: " ++ toString 99)]) :=
  C2_unknown_state_code cmdUnknownEx sStartingEx 99 rfl rfl rfl

/-- Claim C2, counterexample: an unrecognized state byte does mutate the
stored ControllerInfo — a recorded Starting info is replaced by the
default — refuting the zero-mutation part of the claim. -/
theorem C2_counterexample :
    lookupKey cEx (stepState cmdUnknownEx sStartingEx).controllers = some ControllerInfo.new ∧
    lookupKey cEx sStartingEx.controllers =
      some { last_state := ControllerState.Starting, last_error := ControllerError.None } ∧
    ({ last_state := ControllerState.Starting, last_error := ControllerError.None } :
      ControllerInfo) ≠ ControllerInfo.new := by
  refine ⟨?_, ?_, ?_⟩ <;> decide

/-- Claim C3: processing ValueAdded then ValueChanged for the same value
identity leaves exactly one entry with that identity in the value set, and
that entry is the payload carried by the ValueChanged notification (in the
source the whole ValueID is the set's key, so identity determines the
entire stored entry). -/
theorem C3_upsert_law (n1 n2 : Notification) (s : State)
    (h1 : n1.type = NotificationType.Type_ValueAdded)
    (h2 : n2.type = NotificationType.Type_ValueChanged)
    (hv : n1.value_id = n2.value_id) :
    ∃ s1 s2 : State,
      onNotification n1 s = Except.ok (s1, [ZWaveNotification.ValueAdded n2.value_id]) ∧
      onNotification n2 s1 = Except.ok (s2, [ZWaveNotification.ValueChanged n2.value_id]) ∧
      s2.value_ids = insert n2.value_id s.value_ids ∧
      s2.value_ids.filter (fun w => w = n2.value_id) = {n2.value_id} := by
  refine ⟨s.add_value_id n1.value_id, (s.add_value_id n1.value_id).add_value_id n2.value_id,
    ?_, ?_, ?_, ?_⟩
  · simp only [onNotification, h1, hv]
  · simp only [onNotification, h2]
  · simp [State.add_value_id, hv]
  · simp [State.add_value_id, hv, Finset.filter_eq']

/-- Claim C3, witness: the theorem applied to concrete ValueAdded and
ValueChanged notifications for the same value identity on the empty
state. -/
theorem C3_witness :
    ∃ s1 s2 : State,
      onNotification valueAddedEx State.new =
        Except.ok (s1, [ZWaveNotification.ValueAdded valueChangedEx.value_id]) ∧
      onNotification valueChangedEx s1 =
        Except.ok (s2, [ZWaveNotification.ValueChanged valueChangedEx.value_id]) ∧
      s2.value_ids = insert valueChangedEx.value_id State.new.value_ids ∧
      s2.value_ids.filter (fun w => w = valueChangedEx.value_id) = {valueChangedEx.value_id} :=
  C3_upsert_law valueAddedEx valueChangedEx State.new rfl rfl rfl

/-- Claim C4, amended: when the consumer end of the channel has been
dropped, any notification whose translation reaches its channel send makes
`on_notification` panic — `send(..).unwrap()` propagates the failure to
the driver's callback thread instead of containing it. -/
theorem C4_send_failure_panics (n : Notification) (s : State)
    (p : State × List ZWaveNotification) (h : onNotification n s = Except.ok p) :
    onNotificationSend false n s = Except.error Panic.sendFailed := by
  have hlen := onNotification_singleton n s p h
  obtain ⟨s1, evs⟩ := p
  simp only [onNotificationSend, h]
  cases evs with
  | nil => simp at hlen
  | cons e rest => simp [sendAll, trySend]

/-- Claim C4, witness: the amended theorem applied to a concrete NodeAdded
notification with the consumer end dropped. -/
theorem C4_witness :
    onNotificationSend false nodeAddedEx State.new = Except.error Panic.sendFailed :=
  C4_send_failure_panics nodeAddedEx State.new
    (State.new.add_node nodeEx, [ZWaveNotification.NodeAdded nodeEx]) rfl

/-- Claim C4, counterexample: with the consumer end dropped, processing a
concrete DriverReady notification ends in the panic modelling
`send(..).unwrap()` — refuting the claim that the failure is contained and
`on_notification` does not panic. -/
theorem C4_counterexample :
    onNotificationSend false readyEx State.new = Except.error Panic.sendFailed := rfl

/-- Claim C5: after any sequence of add_node / remove_node operations on
the initially empty state, the flattened node set equals the union of all
per-controller groupings, and every node of the flattened set appears in
the grouping keyed by its owning controller. -/
theorem C5_nodes_invariant (ops : List NodeOp) :
    (((applyNodeOps ops).nodes : Set Node) =
      ⋃ c : Controller, ((applyNodeOps ops).nodes_map c : Set Node)) ∧
    ∀ nd : Node, nd ∈ (applyNodeOps ops).nodes →
      nd ∈ (applyNodeOps ops).nodes_map nd.get_controller := by
  obtain ⟨h1, h2⟩ := nodesInvariant_foldl ops State.new nodesInvariant_new
  constructor
  · ext nd
    simp only [Finset.mem_coe, Set.mem_iUnion]
    exact h1 nd
  · intro nd hnd
    obtain ⟨c, hc⟩ := (h1 nd).1 hnd
    exact (h2 c nd hc) ▸ hc

/-- The notification shapes not recognized by the translation table: an
unknown notification type, an unrecognized controller-state byte, a state
byte decoding to Error with an unrecognized error byte, or a
Type_Notification whose sub-code is absent or unrecognized. -/
def unrecognizedShape (n : Notification) : Prop :=
  (∃ code, n.type = NotificationType.Type_Other code) ∨
  (n.type = NotificationType.Type_ControllerCommand ∧
    ∃ b, n.event = some b ∧ ControllerState.from_u8 b = none) ∨
  (n.type = NotificationType.Type_ControllerCommand ∧
    ∃ b, n.event = some b ∧ ControllerState.from_u8 b = some ControllerState.Error ∧
      ControllerError.from_u8 n.byte = none) ∨
  (n.type = NotificationType.Type_Notification ∧ n.notification_code = none)

/-- Claim C6: every notification whose type, controller-state byte,
controller-error byte or notification sub-code falls outside the
translation table makes on_notification emit exactly one event, and that
event is the diagnostic Generic variant; no such notification is dropped
without an event. -/
theorem C6_unrecognized_yields_one_generic (n : Notification) (s : State)
    (h : unrecognizedShape n) :
    ∃ (s1 : State) (msg : String),
      onNotification n s = Except.ok (s1, [ZWaveNotification.Generic msg]) := by
  rcases h with ⟨code, ht⟩ | ⟨ht, b, he, hu⟩ | ⟨ht, b, he, hs, hu⟩ | ⟨ht, hc⟩
  · exact ⟨s, "Unknown notification: " ++ n.debugStr, by simp only [onNotification, ht]⟩
  · exact ⟨{ s with controllers := insertKV s.controllers n.controller ControllerInfo.new },
      "Unknown ControllerState: " ++ toString b,
      by simp only [onNotification, ht, he, hu, commandFinish]⟩
  · exact ⟨{ s with controllers := insertKV s.controllers n.controller ⟨.Error, .None⟩ },
      "Unknown ControllerError: " ++ toString n.byte,
      by simp only [onNotification, ht, he, hs, hu, commandFinish]⟩
  · exact ⟨s, "Unknown NotificationCode " ++ n.node.displayStr,
      by simp only [onNotification, ht, hc]⟩

/-- Claim C6, witness: the theorem applied to a concrete notification of
an unknown type. -/
theorem C6_witness :
    ∃ (s1 : State) (msg : String),
      onNotification otherEx State.new = Except.ok (s1, [ZWaveNotification.Generic msg]) :=
  C6_unrecognized_yields_one_generic otherEx State.new (Or.inl ⟨255, rfl⟩)

/-- Claim C7: for every notification of a state-mutating type (with the
event byte present in the ControllerCommand case), the action trace of
on_notification performs the state mutation, performs the channel send,
and every mutation strictly precedes every send with the state lock
released strictly in between. -/
theorem C7_mutation_before_send (n : Notification)
    (hm : n.type ∈ mutatingTypes)
    (he : n.type = NotificationType.Type_ControllerCommand → n.event.isSome = true) :
    Action.mutateState ∈ notificationActions n ∧
    Action.sendEvent ∈ notificationActions n ∧
    mutationBeforeSend (notificationActions n) := by
  have main : ∀ tr : List Action,
      tr = mutateTrace ∨ tr = Action.readEventByte :: mutateTrace ∨
        tr = Action.readEventByte :: Action.readErrorByte :: mutateTrace →
      Action.mutateState ∈ tr ∧ Action.sendEvent ∈ tr ∧ mutationBeforeSend tr := by
    rintro tr (rfl | rfl | rfl)
    · exact ⟨by decide, by decide, by unfold mutationBeforeSend; decide⟩
    · exact ⟨by decide, by decide, by unfold mutationBeforeSend; decide⟩
    · exact ⟨by decide, by decide, by unfold mutationBeforeSend; decide⟩
  apply main
  simp only [mutatingTypes, List.mem_cons, List.not_mem_nil, or_false] at hm
  rcases hm with ht | ht | ht | ht | ht | ht | ht
  · left; simp [notificationActions, ht]
  · obtain ⟨b, hb⟩ := Option.isSome_iff_exists.mp (he ht)
    rcases hfs : ControllerState.from_u8 b with _ | cs
    · right; left; simp [notificationActions, ht, hb, hfs]
    · cases cs <;>
        first
          | (right; right; simp [notificationActions, ht, hb, hfs]; done)
          | (right; left; simp [notificationActions, ht, hb, hfs])
  · left; simp [notificationActions, ht]
  · left; simp [notificationActions, ht]
  · left; simp [notificationActions, ht]
  · left; simp [notificationActions, ht]
  · left; simp [notificationActions, ht]

/-- Claim C7, witness: the theorem applied to a concrete NodeAdded
notification. -/
theorem C7_witness :
    Action.mutateState ∈ notificationActions nodeAddedEx ∧
    Action.sendEvent ∈ notificationActions nodeAddedEx ∧
    mutationBeforeSend (notificationActions nodeAddedEx) :=
  C7_mutation_before_send nodeAddedEx (by decide) (by intro h; cases h)

/-- Claim C8: in a ControllerCommand notification the error byte is read
and decoded exactly when the outer state byte decodes to Error — an
unrecognized outer byte never reaches the inner decode — and when the
outer byte is unrecognized the whole outcome is independent of the error
byte. -/
theorem C8_short_circuit (n : Notification)
    (ht : n.type = NotificationType.Type_ControllerCommand) :
    (Action.readErrorByte ∈ notificationActions n ↔
      ∃ b, n.event = some b ∧ ControllerState.from_u8 b = some ControllerState.Error) ∧
    (∀ b, n.event = some b → ControllerState.from_u8 b = none →
      ∀ (e : Nat) (s : State),
        onNotification { n with byte := e } s = onNotification n s) := by
  constructor
  · cases hb : n.event with
    | none => simp [notificationActions, ht, hb]
    | some b =>
      rcases hfs : ControllerState.from_u8 b with _ | cs
      · simp [notificationActions, ht, hb, hfs, mutateTrace]
      · cases cs <;> simp [notificationActions, ht, hb, hfs, mutateTrace]
  · intro b hb hu e s
    simp only [onNotification, ht, hb, hu, commandFinish]

/-- Claim C8, witness: instantiation at a concrete ControllerCommand
notification with unrecognized state byte 99: the error byte is never
read, and changing the error byte leaves the outcome unchanged. -/
theorem C8_witness :
    Action.readErrorByte ∉ notificationActions cmdUnknownEx ∧
    onNotification { cmdUnknownEx with byte := 57 } sStartingEx =
      onNotification cmdUnknownEx sStartingEx := by
  obtain ⟨h1, h2⟩ := C8_short_circuit cmdUnknownEx rfl
  refine ⟨fun hmem => ?_, h2 99 rfl rfl 57 sStartingEx⟩
  obtain ⟨b, hb, hfs⟩ := h1.mp hmem
  cases hb
  exact absurd hfs (by decide)

/-- Claim C9: a ControllerCommand whose state byte decodes to Error but
whose error byte is unrecognized still replaces the stored ControllerInfo
of the controller with last_state Error and last_error None, while
emitting only a diagnostic Generic event carrying the raw error code. -/
theorem C9_error_state_unknown_error (n : Notification) (s : State) (b : Nat)
    (ht : n.type = NotificationType.Type_ControllerCommand)
    (he : n.event = some b)
    (hs : ControllerState.from_u8 b = some ControllerState.Error)
    (hu : ControllerError.from_u8 n.byte = none) :
    onNotification n s =
      Except.ok ({ s with controllers := insertKV s.controllers n.controller ⟨.Error, .None⟩ },
        [ZWaveNotification.Generic ("Unknown ControllerError: " ++ toString n.byte)]) ∧
    lookupKey n.controller (stepState n s).controllers =
      some { last_state := ControllerState.Error, last_error := ControllerError.None } := by
  have hmain : onNotification n s =
      Except.ok ({ s with controllers := insertKV s.controllers n.controller ⟨.Error, .None⟩ },
        [ZWaveNotification.Generic ("Unknown ControllerError: " ++ toString n.byte)]) := by
    simp only [onNotification, ht, he, hs, hu, commandFinish]
  refine ⟨hmain, ?_⟩
  simp only [stepState, hmain]
  exact lookupKey_insertKV_self _ _ _

/-- Claim C9, witness: the theorem applied to a concrete ControllerCommand
notification with state byte 3 (Error) and unrecognized error byte 99. -/
theorem C9_witness :
    onNotification cmdErrUnknownEx State.new =
      Except.ok ({ State.new with
          controllers := insertKV State.new.controllers cmdErrUnknownEx.controller ⟨.Error, .None⟩ },
        [ZWaveNotification.Generic ("Unknown ControllerError: " ++ toString cmdErrUnknownEx.byte)]) ∧
    lookupKey cmdErrUnknownEx.controller (stepState cmdErrUnknownEx State.new).controllers =
      some { last_state := ControllerState.Error, last_error := ControllerError.None } :=
  C9_error_state_unknown_error cmdErrUnknownEx State.new 3 rfl rfl rfl rfl

/-- Claim C10: the ControllerCommand arm requires the event byte: with the
event payload absent the handler panics on `get_event().unwrap()` and
produces no event, and with the event payload present it never panics. -/
theorem C10_missing_event_panics (n : Notification) (s : State)
    (ht : n.type = NotificationType.Type_ControllerCommand) :
    (n.event = none → onNotification n s = Except.error Panic.unwrapFailed) ∧
    (∀ b, n.event = some b → exceptIsOk (onNotification n s) = true) := by
  constructor
  · intro he
    simp only [onNotification, ht, he]
  · intro b hb
    rcases hfs : ControllerState.from_u8 b with _ | cs
    · simp [onNotification, ht, hb, hfs, exceptIsOk]
    · cases cs <;>
        first
          | (simp [onNotification, ht, hb, hfs, exceptIsOk]; done)
          | (rcases hfe : ControllerError.from_u8 n.byte with _ | ce <;>
              simp [onNotification, ht, hb, hfs, hfe, exceptIsOk])

/-- Claim C10, witness: the theorem applied to a concrete
ControllerCommand notification carrying no event byte: the handler
panics. -/
theorem C10_witness :
    onNotification cmdNoEventEx State.new = Except.error Panic.unwrapFailed :=
  (C10_missing_event_panics cmdNoEventEx State.new rfl).1 rfl

end Ozw
